import Mathlib

/-!
Verification of the ACIM rotor-flux / stator-phase observer
(`Firmware/MotorControl/acim_estimator.cpp`, `AcimEstimator::update`).

Modelling conventions:
* IEEE-754 `float` arithmetic is modelled as exact rational arithmetic (ℚ).
  The two places where the source can produce non-finite float values are
  modelled explicitly:
  - the slip quotient `config_.slip_velocity * (iq / rotor_flux_)` when the
    flux denominator is zero (±∞ or NaN), together with the subsequent
    `is_nan`/magnitude clamp of the source;
  - the clamp threshold `0.1f / dt` when `dt == 0` (+∞ in float, so the
    magnitude test `|slip| > 0.1f/dt` is false for every finite slip).
  The single corner in which the source stores a non-finite value into its
  state (`dt == 0`, new flux exactly `0`, `iq ≠ 0`, nonzero gain: the slip
  becomes ±∞ and survives the clamp) has no exact-rational counterpart;
  `update` returns `none` there and the theorems below carry the
  corresponding side condition.
* `uint32_t` timestamps are natural numbers; the unsigned wraparound
  subtraction `timestamp - last_timestamp_` is `u32_sub`.
* `wrap_pm_pi` and the clock constant `TIM_1_8_CLOCK_HZ` come from headers
  that are not part of the sources (`board.h`, utility headers), so the wrap
  function and the clock frequency are parameters of `update`; a concrete
  wrap function modelled from the spec is provided as `wrap_pm`.
-/

/-- Configuration of the estimator; the source reads the single field
`config_.slip_velocity` (the slip gain). -/
structure AcimConfig where
  slip_velocity : ℚ
deriving DecidableEq

/-- State of `AcimEstimator`, field for field as used by
`AcimEstimator::update` in the source. -/
structure AcimEstimator where
  config_ : AcimConfig
  rotor_flux_ : ℚ
  phase_offset_ : ℚ
  stator_phase_ : ℚ
  stator_phase_vel_ : ℚ
  slip_vel_ : ℚ
  active_ : Bool
  last_timestamp_ : ℕ
deriving DecidableEq

/-- Unsigned 32-bit wraparound subtraction `a - b` on raw tick values, as
performed by `timestamp - last_timestamp_` on `uint32_t` operands. -/
def u32_sub (a b : ℕ) : ℕ :=
  (a + 2 ^ 32 - b % 2 ^ 32) % 2 ^ 32

/-- Modelled from the spec: `wrap_pm_pi` ("Wrap to [-π, π]: normalize an angle
into that canonical range"); its definition lives in a utility header that is
not among the sources.  Over exact rationals π is abstracted as a positive
parameter `p`: the nearest multiple of `2 p` is subtracted, which lands in
`[-p, p]` and fixes `0`. -/
def wrap_pm (p x : ℚ) : ℚ :=
  x - 2 * p * round (x / (2 * p))

/-- The delta-time of a cycle: wraparound tick difference divided by the
clock frequency (`TIM_1_8_CLOCK_HZ` in the source, a parameter here). -/
def AcimEstimator.dtOf (clock_hz : ℚ) (e : AcimEstimator) (timestamp : ℕ) : ℚ :=
  (u32_sub timestamp e.last_timestamp_ : ℚ) / clock_hz

/-- The slip-velocity computation of the source together with its clamp,
with the IEEE edge cases spelled out over exact rationals:

* `flux ≠ 0`: the quotient is finite; the source clamps to `0` exactly when
  `|slip| > 0.1f / dt`, and for `dt = 0` that threshold is `+∞`, so nothing
  finite is clamped.
* `flux = 0`, and `iq = 0` or `g = 0`: the float quotient is NaN
  (`0/0`, or `0 * ±∞`), so the `is_nan` guard forces `0`.
* `flux = 0`, `iq ≠ 0`, `g ≠ 0`: the float slip is ±∞; for `dt ≠ 0` the
  magnitude clamp forces `0`, while for `dt = 0` the source keeps ±∞, a
  value outside the exact-rational model: `none`. -/
def slip_of (g iq flux dt : ℚ) : Option ℚ :=
  if flux = 0 then
    if iq = 0 ∨ g = 0 then some 0
    else if dt = 0 then none
    else some 0
  else
    if dt ≠ 0 ∧ |g * (iq / flux)| > 1 / 10 / dt then some 0
    else some (g * (iq / flux))

/-- `AcimEstimator::update(timestamp)`, translated line by line from
`Firmware/MotorControl/acim_estimator.cpp`.  The three input ports are
`Option` values (`present()`); `wrap` stands for `wrap_pm_pi` and
`clock_hz` for `TIM_1_8_CLOCK_HZ`.  The source's assignment
`last_timestamp_ = timestamp` happens right after `dt` is computed and
`last_timestamp_` is not read again in the cycle, so it is recorded in each
result record.  `none` marks the one corner where the source would store a
non-finite float (see `slip_of`). -/
def AcimEstimator.update (wrap : ℚ → ℚ) (clock_hz : ℚ) (e : AcimEstimator)
    (timestamp : ℕ) (rotor_phase rotor_phase_vel : Option ℚ)
    (idq : Option (ℚ × ℚ)) : Option AcimEstimator :=
  match rotor_phase, rotor_phase_vel, idq with
  | some rp, some rpv, some (id, iq) =>
    let dt : ℚ := e.dtOf clock_hz timestamp
    if e.active_ = false then
      some { e with rotor_flux_ := 0, phase_offset_ := 0, active_ := true,
                    last_timestamp_ := timestamp }
    else
      let dflux_by_dt := e.config_.slip_velocity * (id - e.rotor_flux_)
      let rotor_flux := e.rotor_flux_ + dflux_by_dt * dt
      match slip_of e.config_.slip_velocity iq rotor_flux dt with
      | none => none
      | some slip_velocity =>
        let phase_offset := wrap (e.phase_offset_ + slip_velocity * dt)
        some { e with
          rotor_flux_ := rotor_flux,
          slip_vel_ := slip_velocity,
          stator_phase_vel_ := rpv + slip_velocity,
          phase_offset_ := phase_offset,
          stator_phase_ := wrap (rp + phase_offset),
          last_timestamp_ := timestamp }
  | _, _, _ => some { e with active_ := false }

/-- A concrete inactive estimator state, used to instantiate theorems on
closed inputs. -/
def exInactive : AcimEstimator :=
  { config_ := { slip_velocity := 50 }, rotor_flux_ := 0, phase_offset_ := 0,
    stator_phase_ := 0, stator_phase_vel_ := 0, slip_vel_ := 0,
    active_ := false, last_timestamp_ := 0 }

/-- A concrete active estimator state with nonzero flux. -/
def exActive : AcimEstimator :=
  { config_ := { slip_velocity := 50 }, rotor_flux_ := 10, phase_offset_ := 0,
    stator_phase_ := 0, stator_phase_vel_ := 0, slip_vel_ := 0,
    active_ := true, last_timestamp_ := 0 }

/-- The wrap function lands in the symmetric interval of radius `p`. -/
lemma wrap_pm_abs_le (p : ℚ) (hp : 0 < p) (x : ℚ) : |wrap_pm p x| ≤ p := by
  have h2p : (0 : ℚ) < 2 * p := by linarith
  have hr : |x / (2 * p) - (round (x / (2 * p)) : ℚ)| ≤ 1 / 2 := abs_sub_round _
  have hx : wrap_pm p x = 2 * p * (x / (2 * p) - (round (x / (2 * p)) : ℚ)) := by
    rw [wrap_pm]
    field_simp
  rw [hx, abs_mul, abs_of_pos h2p]
  calc 2 * p * |x / (2 * p) - (round (x / (2 * p)) : ℚ)|
      ≤ 2 * p * (1 / 2) := by
        exact mul_le_mul_of_nonneg_left hr h2p.le
    _ = p := by ring

/-- The wrap function fixes zero. -/
lemma wrap_pm_zero (p : ℚ) : wrap_pm p 0 = 0 := by
  simp [wrap_pm]

/-- Every rational the slip computation can return: the quotient when it is
finite (`flux ≠ 0`) and survives the clamp (`dt = 0`, an infinite threshold,
or magnitude at most `0.1 / dt`), and `0` otherwise. -/
lemma slip_of_some (g iq flux dt s : ℚ)
    (h : slip_of g iq flux dt = some s) :
    s = if flux ≠ 0 ∧ (dt = 0 ∨ |g * (iq / flux)| ≤ 1 / 10 / dt)
        then g * (iq / flux) else 0 := by
  unfold slip_of at h
  split_ifs at h with h1 h2 h3 h4 <;>
    simp only [Option.some.injEq] at h <;> subst h
  · rw [if_neg]
    simp [h1]
  · rw [if_neg]
    simp [h1]
  · rw [if_neg]
    rcases h4 with ⟨hdt, habs⟩
    rintro ⟨-, hcl | hcl⟩
    · exact hdt hcl
    · exact absurd hcl (not_le.mpr habs)
  · rw [if_pos]
    refine ⟨h1, ?_⟩
    by_cases hdt : dt = 0
    · exact Or.inl hdt
    · right
      by_contra habs
      exact h4 ⟨hdt, not_le.mp habs⟩

/-- Elimination for an Active→Active cycle: the successor state is the
source's integration step, with the stored slip characterized by
`slip_of`. -/
lemma update_active_elim (wrap : ℚ → ℚ) (clock_hz : ℚ) (e : AcimEstimator)
    (t : ℕ) (rp rpv id iq : ℚ) (e' : AcimEstimator)
    (hact : e.active_ = true)
    (hup : e.update wrap clock_hz t (some rp) (some rpv) (some (id, iq)) = some e') :
    slip_of e.config_.slip_velocity iq
        (e.rotor_flux_ + e.config_.slip_velocity * (id - e.rotor_flux_) *
          e.dtOf clock_hz t) (e.dtOf clock_hz t) = some e'.slip_vel_ ∧
    e' = { e with
      rotor_flux_ := e.rotor_flux_ + e.config_.slip_velocity * (id - e.rotor_flux_) *
        e.dtOf clock_hz t,
      slip_vel_ := e'.slip_vel_,
      stator_phase_vel_ := rpv + e'.slip_vel_,
      phase_offset_ := wrap (e.phase_offset_ + e'.slip_vel_ * e.dtOf clock_hz t),
      stator_phase_ := wrap (rp + wrap (e.phase_offset_ + e'.slip_vel_ * e.dtOf clock_hz t)),
      last_timestamp_ := t } := by
  rw [AcimEstimator.update] at hup
  simp only [hact, Bool.true_eq_false, if_false] at hup
  rcases hslip : slip_of e.config_.slip_velocity iq
      (e.rotor_flux_ + e.config_.slip_velocity * (id - e.rotor_flux_) *
        e.dtOf clock_hz t) (e.dtOf clock_hz t) with _ | s
  · rw [hslip] at hup
    exact absurd hup (by simp)
  · rw [hslip] at hup
    simp only [Option.some.injEq] at hup
    subst hup
    refine ⟨rfl, ?_⟩
    simp [hact]

example :
    exInactive.update (wrap_pm 3) 8000000 0 (some 0) (some 0) (some (10, 5)) =
      some { exInactive with rotor_flux_ := 0, phase_offset_ := 0,
                             active_ := true, last_timestamp_ := 0 } := by
  norm_num [AcimEstimator.update, exInactive]

/-- The state reached from `exActive` by one concrete active cycle. -/
def exActive800 : AcimEstimator :=
  { config_ := { slip_velocity := 50 }, rotor_flux_ := 10,
    phase_offset_ := 1 / 400, stator_phase_ := 1 / 400,
    stator_phase_vel_ := 125, slip_vel_ := 25, active_ := true,
    last_timestamp_ := 800 }

/-- Concrete evaluation of one active cycle, shared by the closed
instances below. -/
lemma exActive_step :
    exActive.update (wrap_pm 3) 8000000 800 (some 0) (some 100) (some (10, 5)) =
      some exActive800 := by
  norm_num [AcimEstimator.update, AcimEstimator.dtOf, u32_sub, slip_of,
    wrap_pm, exActive, exActive800, round_eq]

/-- C1: if any of the three inputs is absent, `update` sets `active_ = false`
and leaves every other piece of state unchanged, `rotor_flux_`,
`phase_offset_`, `stator_phase_`, `stator_phase_vel_`, `slip_vel_` and
`last_timestamp_` included. -/
theorem C1_missing_input (wrap : ℚ → ℚ) (clock_hz : ℚ) (e : AcimEstimator)
    (t : ℕ) (rp rpv : Option ℚ) (idq : Option (ℚ × ℚ))
    (h : rp = none ∨ rpv = none ∨ idq = none) :
    e.update wrap clock_hz t rp rpv idq = some { e with active_ := false } := by
  rcases rp with _ | a
  · rfl
  rcases rpv with _ | b
  · rfl
  rcases idq with _ | ⟨c, d⟩
  · rfl
  simp at h

/-- Closed instance of `C1_missing_input`. -/
theorem C1_missing_input_witness :
    exInactive.update (wrap_pm 3) 8000000 5 none (some 1) (some (2, 3)) =
      some { exInactive with active_ := false } :=
  C1_missing_input (wrap_pm 3) 8000000 exInactive 5 none (some 1) (some (2, 3))
    (Or.inl rfl)

/-- C2: an all-inputs-present call on an inactive estimator bootstraps:
`rotor_flux_ = 0`, `phase_offset_ = 0`, `active_ = true`, and the prior
`stator_phase_` and `stator_phase_vel_` (kept by the record update) are
unchanged for that cycle. -/
theorem C2_bootstrap (wrap : ℚ → ℚ) (clock_hz : ℚ) (e : AcimEstimator)
    (t : ℕ) (rp rpv id iq : ℚ) (h : e.active_ = false) :
    e.update wrap clock_hz t (some rp) (some rpv) (some (id, iq)) =
      some { e with rotor_flux_ := 0, phase_offset_ := 0, active_ := true,
                    last_timestamp_ := t } := by
  rw [AcimEstimator.update]
  simp [h]

/-- Closed instance of `C2_bootstrap`. -/
theorem C2_bootstrap_witness :
    exInactive.update (wrap_pm 3) 8000000 0 (some 0) (some 0) (some (10, 5)) =
      some { exInactive with rotor_flux_ := 0, phase_offset_ := 0,
                             active_ := true, last_timestamp_ := 0 } :=
  C2_bootstrap (wrap_pm 3) 8000000 exInactive 0 0 0 10 5 rfl

/-- C9: the bootstrap cycle writes no output signal: `slip_vel_`,
`stator_phase_` and `stator_phase_vel_` keep their prior values, and only
`rotor_flux_`, `phase_offset_`, `active_` and `last_timestamp_` are
modified (`config_` is also untouched). -/
theorem C9_bootstrap_frame (wrap : ℚ → ℚ) (clock_hz : ℚ) (e : AcimEstimator)
    (t : ℕ) (rp rpv id iq : ℚ) (h : e.active_ = false) :
    ∃ e', e.update wrap clock_hz t (some rp) (some rpv) (some (id, iq)) = some e' ∧
      e'.slip_vel_ = e.slip_vel_ ∧
      e'.stator_phase_ = e.stator_phase_ ∧
      e'.stator_phase_vel_ = e.stator_phase_vel_ ∧
      e'.config_ = e.config_ ∧
      e'.rotor_flux_ = 0 ∧
      e'.phase_offset_ = 0 ∧
      e'.active_ = true ∧
      e'.last_timestamp_ = t := by
  refine ⟨{ e with rotor_flux_ := 0, phase_offset_ := 0, active_ := true,
                   last_timestamp_ := t }, ?_, rfl, rfl, rfl, rfl, rfl, rfl, rfl, rfl⟩
  rw [AcimEstimator.update]
  simp [h]

/-- Closed instance of `C9_bootstrap_frame`. -/
theorem C9_bootstrap_frame_witness :
    ∃ e', exInactive.update (wrap_pm 3) 8000000 7 (some 1) (some 2) (some (3, 4)) = some e' ∧
      e'.slip_vel_ = exInactive.slip_vel_ ∧
      e'.stator_phase_ = exInactive.stator_phase_ ∧
      e'.stator_phase_vel_ = exInactive.stator_phase_vel_ ∧
      e'.config_ = exInactive.config_ ∧
      e'.rotor_flux_ = 0 ∧
      e'.phase_offset_ = 0 ∧
      e'.active_ = true ∧
      e'.last_timestamp_ = 7 :=
  C9_bootstrap_frame (wrap_pm 3) 8000000 exInactive 7 1 2 3 4 rfl

/-- C3: on an Active→Active cycle the stored `slip_vel_` equals
`slip_gain * (iq / rotor_flux')`, with `rotor_flux'` the flux after this
cycle's Euler step, whenever that quotient is finite (`rotor_flux' ≠ 0`)
and survives the clamp (threshold `0.1 / dt`, infinite when `dt = 0`);
otherwise `slip_vel_ = 0`. -/
theorem C3_slip_clamp (wrap : ℚ → ℚ) (clock_hz : ℚ) (e : AcimEstimator)
    (t : ℕ) (rp rpv id iq : ℚ) (e' : AcimEstimator)
    (hact : e.active_ = true)
    (hup : e.update wrap clock_hz t (some rp) (some rpv) (some (id, iq)) = some e') :
    e'.slip_vel_ =
      if (e.rotor_flux_ + e.config_.slip_velocity * (id - e.rotor_flux_) *
            e.dtOf clock_hz t) ≠ 0 ∧
          (e.dtOf clock_hz t = 0 ∨
            |e.config_.slip_velocity *
                (iq / (e.rotor_flux_ + e.config_.slip_velocity * (id - e.rotor_flux_) *
                  e.dtOf clock_hz t))| ≤ 1 / 10 / e.dtOf clock_hz t)
      then e.config_.slip_velocity *
             (iq / (e.rotor_flux_ + e.config_.slip_velocity * (id - e.rotor_flux_) *
               e.dtOf clock_hz t))
      else 0 := by
  obtain ⟨hs, -⟩ := update_active_elim wrap clock_hz e t rp rpv id iq e' hact hup
  exact slip_of_some _ _ _ _ _ hs

/-- Closed instance of `C3_slip_clamp`. -/
theorem C3_slip_clamp_witness :
    exActive800.slip_vel_ =
      if (exActive.rotor_flux_ + exActive.config_.slip_velocity * (10 - exActive.rotor_flux_) *
            exActive.dtOf 8000000 800) ≠ 0 ∧
          (exActive.dtOf 8000000 800 = 0 ∨
            |exActive.config_.slip_velocity *
                (5 / (exActive.rotor_flux_ + exActive.config_.slip_velocity * (10 - exActive.rotor_flux_) *
                  exActive.dtOf 8000000 800))| ≤ 1 / 10 / exActive.dtOf 8000000 800)
      then exActive.config_.slip_velocity *
             (5 / (exActive.rotor_flux_ + exActive.config_.slip_velocity * (10 - exActive.rotor_flux_) *
               exActive.dtOf 8000000 800))
      else 0 :=
  C3_slip_clamp (wrap_pm 3) 8000000 exActive 800 0 100 10 5 exActive800 rfl exActive_step

/-- C4: on an Active→Active cycle, `stator_phase_vel_` is exactly the rotor
phase velocity plus the (possibly clamped) slip velocity of that cycle. -/
theorem C4_stator_phase_vel (wrap : ℚ → ℚ) (clock_hz : ℚ) (e : AcimEstimator)
    (t : ℕ) (rp rpv id iq : ℚ) (e' : AcimEstimator)
    (hact : e.active_ = true)
    (hup : e.update wrap clock_hz t (some rp) (some rpv) (some (id, iq)) = some e') :
    e'.stator_phase_vel_ = rpv + e'.slip_vel_ := by
  obtain ⟨-, he⟩ := update_active_elim wrap clock_hz e t rp rpv id iq e' hact hup
  conv_lhs => rw [he]

/-- Closed instance of `C4_stator_phase_vel`. -/
theorem C4_stator_phase_vel_witness :
    exActive800.stator_phase_vel_ = 100 + exActive800.slip_vel_ :=
  C4_stator_phase_vel (wrap_pm 3) 8000000 exActive 800 0 100 10 5 exActive800 rfl
    exActive_step

/-- C5: the invariant that `phase_offset_` and `stator_phase_` lie in the
wrap interval is preserved by every completed `update`, whatever its branch
(missing input, bootstrap, or integration), with the wrap function
instantiated to the spec-modelled `wrap_pm p` for any radius `p > 0`. -/
theorem C5_phase_range (p clock_hz : ℚ) (e : AcimEstimator) (t : ℕ)
    (rp rpv : Option ℚ) (idq : Option (ℚ × ℚ)) (e' : AcimEstimator)
    (hp : 0 < p)
    (h1 : |e.phase_offset_| ≤ p) (h2 : |e.stator_phase_| ≤ p)
    (hup : e.update (wrap_pm p) clock_hz t rp rpv idq = some e') :
    |e'.phase_offset_| ≤ p ∧ |e'.stator_phase_| ≤ p := by
  rcases rp with _ | a
  · rw [show e.update (wrap_pm p) clock_hz t none rpv idq =
        some { e with active_ := false } from rfl, Option.some.injEq] at hup
    subst hup
    exact ⟨h1, h2⟩
  rcases rpv with _ | b
  · rw [show e.update (wrap_pm p) clock_hz t (some a) none idq =
        some { e with active_ := false } from rfl, Option.some.injEq] at hup
    subst hup
    exact ⟨h1, h2⟩
  rcases idq with _ | ⟨id, iq⟩
  · rw [show e.update (wrap_pm p) clock_hz t (some a) (some b) none =
        some { e with active_ := false } from rfl, Option.some.injEq] at hup
    subst hup
    exact ⟨h1, h2⟩
  by_cases hact : e.active_ = true
  · obtain ⟨-, he⟩ := update_active_elim (wrap_pm p) clock_hz e t a b id iq e' hact hup
    constructor
    · conv_lhs => rw [he]
      exact wrap_pm_abs_le p hp _
    · conv_lhs => rw [he]
      exact wrap_pm_abs_le p hp _
  · have hf : e.active_ = false := by
      revert hact
      cases e.active_ <;> simp
    rw [AcimEstimator.update] at hup
    simp only [hf, if_pos, Option.some.injEq] at hup
    subst hup
    refine ⟨?_, h2⟩
    simpa using hp.le

/-- Closed instance of `C5_phase_range`. -/
theorem C5_phase_range_witness :
    |({ exInactive with rotor_flux_ := 0, phase_offset_ := 0, active_ := true,
                        last_timestamp_ := 5 } : AcimEstimator).phase_offset_| ≤ 3 ∧
    |({ exInactive with rotor_flux_ := 0, phase_offset_ := 0, active_ := true,
                        last_timestamp_ := 5 } : AcimEstimator).stator_phase_| ≤ 3 :=
  C5_phase_range 3 8000000 exInactive 5 (some 0) (some 0) (some (1, 2)) _
    (by norm_num) (by norm_num [exInactive]) (by norm_num [exInactive]) rfl

/-- C6: once all inputs are present, `last_timestamp_` is set to the given
timestamp in both the bootstrap and the integration branch, the Euler step
of an active cycle uses `dt = u32_sub timestamp last_timestamp / clock_hz`,
and `u32_sub` is exactly the unsigned 32-bit wraparound difference
`(a - b) mod 2^32`. -/
theorem C6_dt_last_timestamp (wrap : ℚ → ℚ) (clock_hz : ℚ) (e : AcimEstimator)
    (t : ℕ) (rp rpv id iq : ℚ) :
    (∀ e', e.update wrap clock_hz t (some rp) (some rpv) (some (id, iq)) = some e' →
        e'.last_timestamp_ = t ∧
        (e.active_ = true →
          e'.rotor_flux_ = e.rotor_flux_ +
            e.config_.slip_velocity * (id - e.rotor_flux_) *
              ((u32_sub t e.last_timestamp_ : ℚ) / clock_hz))) ∧
    (∀ a b : ℕ, a < 2 ^ 32 → b < 2 ^ 32 →
        (u32_sub a b : ℤ) = ((a : ℤ) - (b : ℤ)) % 2 ^ 32) := by
  constructor
  · intro e' hup
    by_cases hact : e.active_ = true
    · obtain ⟨-, he⟩ := update_active_elim wrap clock_hz e t rp rpv id iq e' hact hup
      constructor
      · conv_lhs => rw [he]
      · intro _
        conv_lhs => rw [he]
        rfl
    · have hf : e.active_ = false := by
        revert hact
        cases e.active_ <;> simp
      rw [AcimEstimator.update] at hup
      simp only [hf, if_pos, Option.some.injEq] at hup
      subst hup
      exact ⟨rfl, fun h => absurd h hact⟩
  · intro a b ha hb
    simp only [u32_sub]
    omega

/-- Closed instance of `C6_dt_last_timestamp`: a bootstrap call records the
timestamp, and `u32_sub` self-corrects across a counter overflow. -/
theorem C6_dt_last_timestamp_witness :
    ({ exInactive with rotor_flux_ := 0, phase_offset_ := 0, active_ := true,
                       last_timestamp_ := 800 } : AcimEstimator).last_timestamp_ = 800 ∧
    (u32_sub 5 (2 ^ 32 - 3) : ℤ) = ((5 : ℤ) - ((2 ^ 32 - 3 : ℕ) : ℤ)) % 2 ^ 32 := by
  have h := C6_dt_last_timestamp (wrap_pm 3) 8000000 exInactive 800 0 0 10 5
  exact ⟨(h.1 _ rfl).1, h.2 5 (2 ^ 32 - 3) (by norm_num) (by norm_num)⟩

/-- Counterexample to C7 as stated: an Active→Active step with `dt > 0`
(`dt = 1/10` s here) and constant `id = 10` in which the Euler step
overshoots: `rotor_flux_` jumps from `0` to `50`, strictly farther from
`id` than before and on the other side of it. -/
theorem C7_flux_monotone_counterexample :
    AcimEstimator.update (wrap_pm 3) 10
        { config_ := { slip_velocity := 50 }, rotor_flux_ := 0, phase_offset_ := 0,
          stator_phase_ := 0, stator_phase_vel_ := 0, slip_vel_ := 0,
          active_ := true, last_timestamp_ := 0 }
        1 (some 0) (some 0) (some (10, 0)) =
      some { config_ := { slip_velocity := 50 }, rotor_flux_ := 50, phase_offset_ := 0,
             stator_phase_ := 0, stator_phase_vel_ := 0, slip_vel_ := 0,
             active_ := true, last_timestamp_ := 1 } ∧
    ¬ (|(10 : ℚ) - 50| ≤ |(10 : ℚ) - 0|) := by
  constructor
  · norm_num [AcimEstimator.update, AcimEstimator.dtOf, u32_sub, slip_of,
      wrap_pm, round_eq]
  · norm_num

/-- C7 amended: on an Active→Active step, if additionally the step factor
satisfies `slip_gain * dt ≤ 1` (with `slip_gain ≥ 0`, `clock_hz ≥ 0`), then
the new `rotor_flux_` is at least as close to `id` as the previous one and
does not cross to the other side of `id`. -/
theorem C7_flux_monotone_amended (wrap : ℚ → ℚ) (clock_hz : ℚ) (e : AcimEstimator)
    (t : ℕ) (rp rpv id iq : ℚ) (e' : AcimEstimator)
    (hact : e.active_ = true)
    (hclock : 0 ≤ clock_hz)
    (hg : 0 ≤ e.config_.slip_velocity)
    (hstep : e.config_.slip_velocity * e.dtOf clock_hz t ≤ 1)
    (hup : e.update wrap clock_hz t (some rp) (some rpv) (some (id, iq)) = some e') :
    |id - e'.rotor_flux_| ≤ |id - e.rotor_flux_| ∧
      0 ≤ (id - e'.rotor_flux_) * (id - e.rotor_flux_) := by
  obtain ⟨-, he⟩ := update_active_elim wrap clock_hz e t rp rpv id iq e' hact hup
  have hdt : 0 ≤ e.dtOf clock_hz t :=
    div_nonneg (Nat.cast_nonneg _) hclock
  have hk : 0 ≤ e.config_.slip_velocity * e.dtOf clock_hz t := mul_nonneg hg hdt
  have hflux : e'.rotor_flux_ = e.rotor_flux_ +
      e.config_.slip_velocity * (id - e.rotor_flux_) * e.dtOf clock_hz t := by
    conv_lhs => rw [he]
  have hid : id - e'.rotor_flux_ =
      (id - e.rotor_flux_) * (1 - e.config_.slip_velocity * e.dtOf clock_hz t) := by
    rw [hflux]
    ring
  constructor
  · rw [hid, abs_mul]
    have habs : |1 - e.config_.slip_velocity * e.dtOf clock_hz t| ≤ 1 := by
      rw [abs_le]
      constructor <;> linarith
    calc |id - e.rotor_flux_| * |1 - e.config_.slip_velocity * e.dtOf clock_hz t|
        ≤ |id - e.rotor_flux_| * 1 :=
          mul_le_mul_of_nonneg_left habs (abs_nonneg _)
      _ = |id - e.rotor_flux_| := mul_one _
  · rw [hid]
    have h1k : 0 ≤ 1 - e.config_.slip_velocity * e.dtOf clock_hz t := by linarith
    calc (0 : ℚ) ≤ (id - e.rotor_flux_) ^ 2 *
          (1 - e.config_.slip_velocity * e.dtOf clock_hz t) :=
        mul_nonneg (sq_nonneg _) h1k
      _ = (id - e.rotor_flux_) * (1 - e.config_.slip_velocity * e.dtOf clock_hz t) *
          (id - e.rotor_flux_) := by ring

/-- The state reached from `exActive` by one concrete active cycle with
`id = 12`, `iq = 0`. -/
def exActive800b : AcimEstimator :=
  { config_ := { slip_velocity := 50 }, rotor_flux_ := 1001 / 100,
    phase_offset_ := 0, stator_phase_ := 0, stator_phase_vel_ := 100,
    slip_vel_ := 0, active_ := true, last_timestamp_ := 800 }

/-- Concrete evaluation of the active cycle behind the closed instance of
the amended C7. -/
lemma exActive_step_b :
    exActive.update (wrap_pm 3) 8000000 800 (some 0) (some 100) (some (12, 0)) =
      some exActive800b := by
  norm_num [AcimEstimator.update, AcimEstimator.dtOf, u32_sub, slip_of,
    wrap_pm, exActive, exActive800b, round_eq]

/-- Closed instance of `C7_flux_monotone_amended`. -/
theorem C7_flux_monotone_amended_witness :
    |(12 : ℚ) - exActive800b.rotor_flux_| ≤ |(12 : ℚ) - exActive.rotor_flux_| ∧
      0 ≤ ((12 : ℚ) - exActive800b.rotor_flux_) * ((12 : ℚ) - exActive.rotor_flux_) :=
  C7_flux_monotone_amended (wrap_pm 3) 8000000 exActive 800 0 100 12 0 exActive800b
    rfl (by norm_num) (by norm_num [exActive])
    (by norm_num [AcimEstimator.dtOf, u32_sub, exActive]) exActive_step_b


/-- Concrete evaluation of the second call of the C8 scenario, for an
arbitrary stale `stator_phase_`/`stator_phase_vel_`/`slip_vel_` left over
from before the bootstrap. -/
lemma c8_second_call (p sp spv sv : ℚ) :
    AcimEstimator.update (wrap_pm p) 8000000
        { config_ := ⟨50⟩, rotor_flux_ := 0, phase_offset_ := 0,
          stator_phase_ := sp, stator_phase_vel_ := spv, slip_vel_ := sv,
          active_ := true, last_timestamp_ := 0 }
        800 (some 0) (some 100) (some (10, 5)) =
      some { config_ := ⟨50⟩, rotor_flux_ := 1 / 20, phase_offset_ := 0,
             stator_phase_ := 0, stator_phase_vel_ := 100, slip_vel_ := 0,
             active_ := true, last_timestamp_ := 800 } := by
  have hdt : AcimEstimator.dtOf 8000000
      { config_ := ⟨50⟩, rotor_flux_ := 0, phase_offset_ := 0,
        stator_phase_ := sp, stator_phase_vel_ := spv, slip_vel_ := sv,
        active_ := true, last_timestamp_ := 0 } 800 = 1 / 10000 := by
    rw [AcimEstimator.dtOf, u32_sub]
    norm_num
  have hslip : slip_of 50 5 ((0 : ℚ) + 50 * (10 - 0) * (1 / 10000)) (1 / 10000) =
      some 0 := by
    rw [slip_of]
    norm_num
  rw [AcimEstimator.update]
  simp only [hdt]
  simp only [Bool.true_eq_false, if_false]
  simp only [hslip]
  norm_num [wrap_pm, round_eq]

/-- C8: the two-call scenario at clock 8,000,000 ticks/s with slip gain 50,
starting inactive: call 1 at timestamp 0 bootstraps; call 2 at timestamp 800
(`dt = 1/10000` s) with `id = 10`, `iq = 5`, `rotor_phase = 0`,
`rotor_phase_vel = 100` yields `rotor_flux = 1/20`, a raw slip of 5000
clamped to 0 by the `0.1/dt = 1000` bound, hence `stator_phase_vel = 100`,
`phase_offset = 0`, `stator_phase = 0`. -/
theorem C8_scenario (p : ℚ) (e : AcimEstimator) (rp1 rpv1 id1 iq1 : ℚ)
    (hg : e.config_.slip_velocity = 50) (hact : e.active_ = false) :
    e.update (wrap_pm p) 8000000 0 (some rp1) (some rpv1) (some (id1, iq1)) =
      some { e with rotor_flux_ := 0, phase_offset_ := 0, active_ := true,
                    last_timestamp_ := 0 } ∧
    AcimEstimator.update (wrap_pm p) 8000000
        { e with rotor_flux_ := 0, phase_offset_ := 0, active_ := true,
                 last_timestamp_ := 0 }
        800 (some 0) (some 100) (some (10, 5)) =
      some { e with rotor_flux_ := 1 / 20, phase_offset_ := 0, stator_phase_ := 0,
                    stator_phase_vel_ := 100, slip_vel_ := 0, active_ := true,
                    last_timestamp_ := 800 } := by
  obtain ⟨⟨g⟩, fl, po, sp, spv, sv, ac, lt⟩ := e
  simp only at hg hact
  subst hg
  subst hact
  constructor
  · rw [AcimEstimator.update]
    simp
  · exact c8_second_call p sp spv sv

/-- Closed instance of `C8_scenario`. -/
theorem C8_scenario_witness :
    exInactive.update (wrap_pm 3) 8000000 0 (some 0) (some 0) (some (0, 0)) =
      some { exInactive with rotor_flux_ := 0, phase_offset_ := 0, active_ := true,
                             last_timestamp_ := 0 } ∧
    AcimEstimator.update (wrap_pm 3) 8000000
        { exInactive with rotor_flux_ := 0, phase_offset_ := 0, active_ := true,
                          last_timestamp_ := 0 }
        800 (some 0) (some 100) (some (10, 5)) =
      some { exInactive with rotor_flux_ := 1 / 20, phase_offset_ := 0,
                             stator_phase_ := 0, stator_phase_vel_ := 100,
                             slip_vel_ := 0, active_ := true,
                             last_timestamp_ := 800 } :=
  C8_scenario 3 exInactive 0 0 0 0 rfl rfl

/-- C10: an Active→Active cycle with a duplicate timestamp (`dt = 0`) leaves
`rotor_flux_` unchanged, writes the unclamped slip quotient
`slip_gain * (iq / rotor_flux_)` — the `0.1/dt` threshold is infinite — into
`slip_vel_` and into `stator_phase_vel_` (added to `rotor_phase_vel`), and
still wraps `phase_offset_` and `stator_phase_` as usual; the hypothesis
`rotor_flux_ ≠ 0` is the claim's restriction to a finite, non-NaN
quotient. -/
theorem C10_duplicate_timestamp (wrap : ℚ → ℚ) (clock_hz : ℚ) (e : AcimEstimator)
    (rp rpv id iq : ℚ)
    (hact : e.active_ = true)
    (hlt : e.last_timestamp_ < 2 ^ 32)
    (hflux : e.rotor_flux_ ≠ 0) :
    e.update wrap clock_hz e.last_timestamp_ (some rp) (some rpv) (some (id, iq)) =
      some { e with
        slip_vel_ := e.config_.slip_velocity * (iq / e.rotor_flux_),
        stator_phase_vel_ := rpv + e.config_.slip_velocity * (iq / e.rotor_flux_),
        phase_offset_ := wrap e.phase_offset_,
        stator_phase_ := wrap (rp + wrap e.phase_offset_) } := by
  have hdt : AcimEstimator.dtOf clock_hz e e.last_timestamp_ = 0 := by
    rw [AcimEstimator.dtOf, u32_sub, Nat.mod_eq_of_lt hlt]
    have h2 : e.last_timestamp_ + 2 ^ 32 - e.last_timestamp_ = 2 ^ 32 := by
      omega
    rw [h2]
    simp
  have hslip : slip_of e.config_.slip_velocity iq e.rotor_flux_ 0 =
      some (e.config_.slip_velocity * (iq / e.rotor_flux_)) := by
    rw [slip_of]
    rw [if_neg hflux, if_neg (by simp)]
  rw [AcimEstimator.update]
  simp only [hact, Bool.true_eq_false, if_false, hdt, hslip, mul_zero, add_zero]

/-- Closed instance of `C10_duplicate_timestamp`. -/
theorem C10_duplicate_timestamp_witness :
    exActive.update (wrap_pm 3) 8000000 exActive.last_timestamp_
        (some 0) (some 100) (some (10, 5)) =
      some { exActive with
        slip_vel_ := exActive.config_.slip_velocity * (5 / exActive.rotor_flux_),
        stator_phase_vel_ := 100 + exActive.config_.slip_velocity * (5 / exActive.rotor_flux_),
        phase_offset_ := wrap_pm 3 exActive.phase_offset_,
        stator_phase_ := wrap_pm 3 (0 + wrap_pm 3 exActive.phase_offset_) } :=
  C10_duplicate_timestamp (wrap_pm 3) 8000000 exActive 0 100 10 5 rfl
    (by norm_num [exActive]) (by norm_num [exActive])
